import Mathlib

/-!
Verification development for the credential-proxy gateway
(`server/sessions.py`, `server/credentials.py`, `server/proxy.py`,
`server/proxy_server.py`).

The Python code is shallowly embedded:
* Python dicts become association lists (`alistGet`, `alistSet`, `alistErase`
  mirror `d.get`, `d[k] = v`, `del d[k]` for dicts with unique keys).
* Clock readings (`datetime.now()` / `datetime.utcnow()`) become an explicit
  `now : Int`, measured in minutes, so `timedelta(minutes=m)` is `+ m` and
  `timedelta(hours=2)` is `+ 120`.
* Network and subprocess effects become explicit outcome parameters
  (`ATEnv`, `ProcResult`) and every network call made is recorded in a
  returned trace (`List NetCall`).
* Python object aliasing, where a claim is about it, is made explicit with a
  small heap: an address-indexed map with an allocation counter.
-/

namespace ClaudeGitBridge

/-- Python truthiness of an optional string: `None` and `""` are falsy. -/
def pyTruthyStr : Option String → Bool
  | none => false
  | some s => s != ""

/-- Python `x or d` for an optional string `x` and default `d`:
the default is taken when `x` is `None` or empty. -/
def pyOrStr (o : Option String) (d : String) : String :=
  match o with
  | none => d
  | some s => if s = "" then d else s

/-- Lookup in a Python dict with unique keys (`d.get(k)`). -/
def alistGet {α : Type} (m : List (String × α)) (k : String) : Option α :=
  match m with
  | [] => none
  | p :: rest => if p.1 = k then some p.2 else alistGet rest k

/-- Python dict assignment `d[k] = v`: replace the entry for `k` if present,
otherwise append a new entry. -/
def alistSet {α : Type} (m : List (String × α)) (k : String) (v : α) :
    List (String × α) :=
  match m with
  | [] => [(k, v)]
  | p :: rest => if p.1 = k then (k, v) :: rest else p :: alistSet rest k v

/-- Python dict deletion `del d[k]` (keys are unique, so removing every
entry for `k` removes exactly the one entry). -/
def alistErase {α : Type} (m : List (String × α)) (k : String) :
    List (String × α) :=
  match m with
  | [] => []
  | p :: rest => if p.1 = k then alistErase rest k else p :: alistErase rest k

/-- Python `s.lower()` for ASCII header names: lower-case each character.
(Defined over the character list so that it computes by kernel reduction.) -/
def pyLower (s : String) : String :=
  ⟨s.data.map Char.toLower⟩

/-- Python `s.strip()`: drop leading and trailing whitespace. -/
def pyStrip (s : String) : String :=
  ⟨((s.data.dropWhile Char.isWhitespace).reverse.dropWhile
      Char.isWhitespace).reverse⟩

/-- Python `s.rstrip('/')`: drop trailing slashes. -/
def pyRstripSlash (s : List Char) : List Char :=
  (s.reverse.dropWhile (fun c => c = '/')).reverse

/-- Python `s.replace('.git', '')`: remove each occurrence of `.git`,
scanning left to right. -/
def stripDotGit : List Char → List Char
  | '.' :: 'g' :: 'i' :: 't' :: rest => stripDotGit rest
  | c :: rest => c :: stripDotGit rest
  | [] => []

/-- Python `s.split('/')`: split at every slash, keeping empty pieces
(`''.split('/') == ['']`). -/
def splitOnSlash : List Char → List (List Char)
  | [] => [[]]
  | '/' :: rest => [] :: splitOnSlash rest
  | c :: rest =>
    match splitOnSlash rest with
    | h :: t => (c :: h) :: t
    | [] => [[c]]

/-- Request/response headers: a Python dict from header name to value. -/
abbrev Headers := List (String × String)

/-! ## `server/proxy.py`: header filtering -/

/-- The set `HOP_BY_HOP_HEADERS` from `server/proxy.py`: hop-by-hop headers plus the
gateway's own auth headers, all lower-case. -/
def HOP_BY_HOP_HEADERS : List String :=
  ["connection", "keep-alive", "proxy-authenticate", "proxy-authorization",
   "te", "trailer", "transfer-encoding", "upgrade", "host",
   "x-session-id", "x-auth-key"]

/-- The function `filter_request_headers` from `server/proxy.py`: keep a header iff its
lower-cased name is not in `HOP_BY_HOP_HEADERS`. -/
def filter_request_headers (headers : Headers) : Headers :=
  headers.filter (fun p => decide (¬ pyLower p.1 ∈ HOP_BY_HOP_HEADERS))

/-! ## `server/credentials.py`: credentials and the ATProto token lifecycle -/

/-- The data fields of a successful ATProto `createSession` / `refreshSession`
response (`accessJwt`, `refreshJwt`, `did`, `handle`). -/
structure SessData where
  accessJwt : String
  refreshJwt : String
  did : String
  handle : String
deriving DecidableEq

/-- The dataclass `ATProtoSession` from `server/credentials.py`; `expires_at` in minutes. -/
structure ATProtoSession where
  access_jwt : String
  refresh_jwt : String
  did : String
  handle : String
  expires_at : Int
deriving DecidableEq

/-- The dataclass `ServiceCredential` from `server/credentials.py`. The mutable
`_atproto_session` cache is threaded separately as an
`Option ATProtoSession` state, because the Python field is mutated in place
under `_session_lock`. `service_type` stays a string to mirror the code's
string dispatch. -/
structure ServiceCredential where
  service_type : String
  base_url : String
  credential : Option String := none
  auth_header : Option String := none
  query_param : Option String := none
  identifier : Option String := none
  app_password : Option String := none
deriving DecidableEq

/-- A network call made by the ATProto token lifecycle. -/
inductive NetCall where
  | createSession
  | refreshSession
deriving DecidableEq

/-- Outcomes of the two possible ATProto network calls: `none` models a
`requests.exceptions.RequestException` (connection error, timeout, or
`raise_for_status`), `some d` a successful JSON response. -/
structure ATEnv where
  createOutcome : Option SessData := none
  refreshOutcome : Option SessData := none

/-- The method `ServiceCredential._refresh_atproto_session`. Returns the Python boolean
result, the new `_atproto_session` state, and the trace of network calls.
On failure the cached session is set to `None`. A new session expires at
`now + 2h` (`+ 120` minutes). -/
def refresh_atproto_session (env : ATEnv) (now : Int)
    (st : Option ATProtoSession) : Bool × Option ATProtoSession × List NetCall :=
  match st with
  | none => (false, none, [])
  | some _ =>
    match env.refreshOutcome with
    | some d =>
      (true, some ⟨d.accessJwt, d.refreshJwt, d.did, d.handle, now + 120⟩,
       [NetCall.refreshSession])
    | none => (false, none, [NetCall.refreshSession])

/-- The method `ServiceCredential._create_atproto_session`. Missing (or empty, by Python
truthiness) `identifier`/`app_password` returns `False` without any network
call; otherwise one `createSession` call is made, and on success the cache is
replaced with a session expiring at `now + 2h` (`+ 120` minutes). On network
failure the cached state is left as it was. -/
def create_atproto_session (cred : ServiceCredential) (env : ATEnv) (now : Int)
    (st : Option ATProtoSession) : Bool × Option ATProtoSession × List NetCall :=
  if pyTruthyStr cred.identifier && pyTruthyStr cred.app_password then
    match env.createOutcome with
    | some d =>
      (true, some ⟨d.accessJwt, d.refreshJwt, d.did, d.handle, now + 120⟩,
       [NetCall.createSession])
    | none => (false, st, [NetCall.createSession])
  else (false, st, [])

/-- The method `ServiceCredential._get_atproto_token`, the body executed under
`_session_lock`: reuse the cached session if it has more than 5 minutes of
validity left, else try a refresh, else try a full session creation; return
the access token (or `None`), the new cache state, and the network-call
trace. -/
def get_atproto_token (cred : ServiceCredential) (env : ATEnv) (now : Int)
    (st : Option ATProtoSession) :
    Option String × Option ATProtoSession × List NetCall :=
  match st with
  | some s =>
    if s.expires_at > now + 5 then (some s.access_jwt, some s, [])
    else
      let r := refresh_atproto_session env now (some s)
      if r.1 then (r.2.1.map (fun s2 => s2.access_jwt), r.2.1, r.2.2)
      else
        let c := create_atproto_session cred env now r.2.1
        if c.1 then (c.2.1.map (fun s2 => s2.access_jwt), c.2.1, r.2.2 ++ c.2.2)
        else (none, c.2.1, r.2.2 ++ c.2.2)
  | none =>
    let c := create_atproto_session cred env now none
    if c.1 then (c.2.1.map (fun s2 => s2.access_jwt), c.2.1, c.2.2)
    else (none, c.2.1, c.2.2)

/-- The method `ServiceCredential.inject_auth`, value level. The Python body's first
statement `headers = dict(headers)` copies the dict; the value level takes the
copy's contents and returns the final contents (the heap level below models
the copy itself). Returns the final headers, the final URL, the new
`_atproto_session` state and the network-call trace. -/
def inject_auth (cred : ServiceCredential) (env : ATEnv) (now : Int)
    (st : Option ATProtoSession) (headers : Headers) (url : String) :
    Headers × String × Option ATProtoSession × List NetCall :=
  if cred.service_type = "atproto" then
    let r := get_atproto_token cred env now st
    match r.1 with
    | some token =>
      (alistSet headers "Authorization" ("Bearer " ++ token), url, r.2.1, r.2.2)
    | none => (headers, url, r.2.1, r.2.2)
  else if cred.service_type = "bearer" then
    if pyTruthyStr cred.credential then
      (alistSet headers "Authorization" ("Bearer " ++ cred.credential.getD ""),
       url, st, [])
    else (headers, url, st, [])
  else if cred.service_type = "header" then
    let header_name := pyOrStr cred.auth_header "X-API-Key"
    if pyTruthyStr cred.credential then
      (alistSet headers header_name (cred.credential.getD ""), url, st, [])
    else (headers, url, st, [])
  else if cred.service_type = "query" then
    let param_name := pyOrStr cred.query_param "api_key"
    if pyTruthyStr cred.credential then
      let separator := if url.data.contains '?' then "&" else "?"
      (headers, url ++ separator ++ param_name ++ "=" ++ cred.credential.getD "",
       st, [])
    else (headers, url, st, [])
  else (headers, url, st, [])

/-- A heap of header dicts: Python dict objects addressed by allocation
order. `next` is the next fresh address. -/
structure DictHeap where
  mem : Nat → Headers
  next : Nat

/-- The method `ServiceCredential.inject_auth`, heap level. The body's
`headers = dict(headers)` allocates a fresh dict holding a copy of the
caller's dict; every subsequent `headers[...] = ...` in the body targets that
copy, so the heap write goes to the fresh address only. Returns the new heap,
the address of the returned dict, the final URL, the new cache state and the
trace. -/
def inject_auth_on_heap (cred : ServiceCredential) (env : ATEnv) (now : Int)
    (st : Option ATProtoSession) (h : DictHeap) (addr : Nat) (url : String) :
    DictHeap × Nat × String × Option ATProtoSession × List NetCall :=
  let copyAddr := h.next
  let r := inject_auth cred env now st (h.mem addr) url
  (⟨fun a => if a = copyAddr then r.1 else h.mem a, h.next + 1⟩,
   copyAddr, r.2.1, r.2.2.1, r.2.2.2)

/-! ## `server/sessions.py`: the session store

Python `Session` objects hold a reference to a `list[str]` of services; to
state aliasing facts faithfully the lists live in a small heap
(`StoreState.lheap`) and a `Session` carries the address of its list. -/

/-- The dataclass `Session` from `server/sessions.py`; `servicesAddr` is the heap address of
the session's `services` list, `created_at`/`expires_at` are minutes. -/
structure Session where
  session_id : String
  servicesAddr : Nat
  created_at : Int
  expires_at : Int
deriving DecidableEq

/-- The method `Session.is_expired`: `datetime.now() > self.expires_at`. -/
def Session.is_expired (s : Session) (now : Int) : Bool :=
  decide (s.expires_at < now)

/-- The state of a `SessionStore` together with the heap of services lists:
the `_sessions` dict, the list heap, and the next fresh heap address. -/
structure StoreState where
  sessions : List (String × Session)
  lheap : Nat → List String
  next : Nat

/-- The method `SessionStore.create`: copy the caller's services list
(`list(services)`, modelled as allocating a fresh heap cell), build a session
with `expires_at = now + timedelta(minutes=ttl_minutes)`, store it, and
return the very object stored. `newId` stands for the generated
`uuid.uuid4()` string. -/
def SessionStore.create (st : StoreState) (services : List String)
    (ttl_minutes : Int) (now : Int) (newId : String) : Session × StoreState :=
  let addr := st.next
  let session : Session := ⟨newId, addr, now, now + ttl_minutes⟩
  (session,
   ⟨alistSet st.sessions newId session,
    fun a => if a = addr then services else st.lheap a,
    st.next + 1⟩)

/-- The method `SessionStore.get`: return the stored session if present and unexpired;
if present but expired, delete it (lazy eviction) and return `None`. The
session returned is the stored record itself, not a copy. -/
def SessionStore.get (st : StoreState) (now : Int) (sid : String) :
    Option Session × StoreState :=
  match alistGet st.sessions sid with
  | none => (none, st)
  | some s =>
    if s.is_expired now then
      (none, { st with sessions := alistErase st.sessions sid })
    else (some s, st)

/-- The method `SessionStore.has_service`: `get` followed by
`session.has_service(service)`, i.e. `service in session.services`. -/
def SessionStore.has_service (st : StoreState) (now : Int)
    (sid service : String) : Bool × StoreState :=
  let r := SessionStore.get st now sid
  match r.1 with
  | none => (false, r.2)
  | some s => ((r.2.lheap s.servicesAddr).contains service, r.2)

/-- The client-side mutation `session.services.append(x)` performed on a
session object whose services list lives at heap address `addr`: a write
through the shared reference. -/
def heapAppend (st : StoreState) (addr : Nat) (x : String) : StoreState :=
  { st with lheap := fun a => if a = addr then st.lheap a ++ [x] else st.lheap a }

/-- One entry of `SessionStore.list_sessions`: a freshly built dict whose
`services` value is the stored session's list object itself (same heap
address). `minutes_remaining` is `Session.time_remaining` in minutes. -/
structure SessionInfo where
  session_id : String
  servicesAddr : Nat
  created_at : Int
  expires_at : Int
  minutes_remaining : Int
deriving DecidableEq

/-- The method `SessionStore.list_sessions`: one info dict per unexpired session. -/
def SessionStore.list_sessions (st : StoreState) (now : Int) :
    List SessionInfo :=
  (st.sessions.filter (fun p => !(p.2.is_expired now))).map
    (fun p =>
      ⟨p.2.session_id, p.2.servicesAddr, p.2.created_at, p.2.expires_at,
       max (p.2.expires_at - now) 0⟩)

/-! ## `server/proxy_server.py`: the session-creation endpoint -/

/-- The response of `POST /sessions` (`create_session` in
`server/proxy_server.py`), reduced to the fields the claims mention: the HTTP
status, the error message of a 400, the stored session of a 200, and the
echoed `expires_in_minutes` (the caller-supplied TTL). -/
structure EndpointResult where
  status : Nat
  error : Option String := none
  session : Option Session := none
  expires_in_minutes : Option Int := none

/-- The handler `create_session` from `server/proxy_server.py`: reject an empty services
list, reject services outside `credential_store.list_services() | {'git'}`
(here `available` plus `"git"`), otherwise call `session_store.create` with
the caller-supplied `ttl_minutes` exactly as given — the endpoint applies no
clamping or validation to `ttl_minutes`. -/
def create_session (available : List String) (services : List String)
    (ttl_minutes : Int) (now : Int) (newId : String) (st : StoreState) :
    EndpointResult × StoreState :=
  if services = [] then
    ({ status := 400, error := some "services list is required" }, st)
  else if services.filter (fun s => !(("git" :: available).contains s)) = [] then
    ({ status := 200,
       session := some (SessionStore.create st services ttl_minutes now newId).1,
       expires_in_minutes := some ttl_minutes },
     (SessionStore.create st services ttl_minutes now newId).2)
  else
    ({ status := 400, error := some "unknown services" }, st)

/-! ## `server/proxy_server.py`: git bundle endpoints -/

/-- The result of one `subprocess.run` invocation: exit code 0 with its
stdout, a nonzero exit with its stderr, or a `subprocess.TimeoutExpired`. -/
inductive ProcResult where
  | ok (stdout : String)
  | fail (stderr : String)
  | timeout
deriving DecidableEq

/-- The inputs and external outcomes of one `POST /git/fetch-bundle`
request: whether `verify_session_or_key('git')` passed, the parsed
`repo_url` (`None` when absent), the parsed `branch` (read by the handler
but unused: the bundle is created over `--all`), and the outcomes of the
`git clone` and `git bundle create` subprocesses. -/
structure FetchEnv where
  authorized : Bool
  repo_url : Option String
  branch : String
  cloneResult : ProcResult
  bundleResult : ProcResult

/-- What a `POST /git/fetch-bundle` request leaves behind: the HTTP status,
the error message if any, whether the temporary `.bundle` file
(`tempfile.NamedTemporaryFile(delete=False)`) was created, whether this
handler deleted it before returning, and whether the bundle was sent. -/
structure FetchOutcome where
  httpStatus : Nat
  error : Option String := none
  bundleFileCreated : Bool := false
  bundleFileDeleted : Bool := false
  sentBundle : Bool := false
deriving DecidableEq

/-- The handler `fetch_bundle` from `server/proxy_server.py`. The temp bundle file is
created only after a successful clone; the handler unlinks it only on the
bundle-creation-failure branch. A `TimeoutExpired` escapes to the outer
`except` (408) without unlinking, and on success `send_file` streams the
file — neither this handler nor Flask deletes it afterwards (the code
comment asserting Flask cleans it up does not correspond to any mechanism). -/
def fetch_bundle (env : FetchEnv) : FetchOutcome :=
  if !env.authorized then { httpStatus := 401, error := some "unauthorized" }
  else if !(pyTruthyStr env.repo_url) then
    { httpStatus := 400, error := some "missing repo_url" }
  else
    match env.cloneResult with
    | ProcResult.timeout =>
      { httpStatus := 408, error := some "operation timeout" }
    | ProcResult.fail e =>
      { httpStatus := 500, error := some ("clone failed: " ++ e) }
    | ProcResult.ok _ =>
      match env.bundleResult with
      | ProcResult.timeout =>
        { httpStatus := 408, error := some "operation timeout",
          bundleFileCreated := true }
      | ProcResult.fail e =>
        { httpStatus := 500, error := some ("bundle creation failed: " ++ e),
          bundleFileCreated := true, bundleFileDeleted := true }
      | ProcResult.ok _ =>
        { httpStatus := 200, bundleFileCreated := true, sentBundle := true }

/-- The inputs and external outcomes of one `POST /git/push-bundle` request:
authorization, the form fields (`None` when absent; `create_pr` is the
parsed `form.get('create_pr','false').lower() == 'true'`), whether a bundle
file part is attached, whether the gh CLI was found at startup (`GH_PATH`),
and the outcomes of the four subprocesses. -/
structure PushEnv where
  authorized : Bool
  repo_url : Option String
  branch : Option String
  create_pr : Bool
  pr_title : String
  pr_body : String
  hasBundleFile : Bool
  ghAvailable : Bool
  cloneResult : ProcResult
  fetchResult : ProcResult
  pushResult : ProcResult
  ghResult : ProcResult

/-- The JSON body built by a successful `push_bundle` run. -/
structure PushResponse where
  status : String
  branch : String
  message : String
  pr_created : Option Bool := none
  pr_url : Option String := none
  pr_error : Option String := none
  manual_pr_url : Option String := none
  pr_message : Option String := none
deriving DecidableEq

/-- What a `POST /git/push-bundle` request returns and leaves behind:
HTTP status, the error of a failure response, the JSON body of a 200, and
whether the `finally` block deleted the saved temp bundle file. -/
structure PushOutcome where
  httpStatus : Nat
  error : Option String := none
  response : Option PushResponse := none
  tempBundleDeleted : Bool := false
deriving DecidableEq

/-- The owner/repo extraction of `push_bundle`:
`repo_url.rstrip('/').replace('.git', '').split('/')` then indices `[-2]`
and `[-1]`; `None` models the `IndexError` path (fewer than two parts)
swallowed by the surrounding `try`/`except`. -/
def ownerRepo (repo_url : String) : Option (String × String) :=
  let parts := splitOnSlash (stripDotGit (pyRstripSlash repo_url.data))
  match parts.reverse with
  | r :: o :: _ => some (⟨o⟩, ⟨r⟩)
  | _ => none

/-- The manual create-PR fallback URL built by `push_bundle`. -/
def manualPrUrl (o r branch : String) : String :=
  "https://github.com/" ++ o ++ "/" ++ r ++ "/pull/new/" ++ branch

/-- The handler `push_bundle` from `server/proxy_server.py`. Clone, bundle-fetch and
push failures return 500 with that step's stderr; any `TimeoutExpired`
(including one raised by the `gh pr create` invocation) escapes to the outer
`except` and returns 408. When all git steps succeed the response has
`status:"success"`; a gh nonzero exit or an unavailable gh CLI downgrades to
`pr_created:false` with a manual PR URL when `repo_url` yields owner/repo
parts. The `finally` block deletes the saved temp bundle whenever it was
created (i.e. whenever the form/file validation passed). -/
def push_bundle (env : PushEnv) : PushOutcome :=
  if !env.authorized then { httpStatus := 401, error := some "unauthorized" }
  else if !(pyTruthyStr env.repo_url && pyTruthyStr env.branch) then
    { httpStatus := 400, error := some "missing repo_url or branch" }
  else if !env.hasBundleFile then
    { httpStatus := 400, error := some "missing bundle file" }
  else
    let repo_url := env.repo_url.getD ""
    let branch := env.branch.getD ""
    match env.cloneResult with
    | ProcResult.timeout =>
      { httpStatus := 408, error := some "operation timeout",
        tempBundleDeleted := true }
    | ProcResult.fail e =>
      { httpStatus := 500, error := some ("clone failed: " ++ e),
        tempBundleDeleted := true }
    | ProcResult.ok _ =>
      match env.fetchResult with
      | ProcResult.timeout =>
        { httpStatus := 408, error := some "operation timeout",
          tempBundleDeleted := true }
      | ProcResult.fail e =>
        { httpStatus := 500, error := some ("bundle fetch failed: " ++ e),
          tempBundleDeleted := true }
      | ProcResult.ok _ =>
        match env.pushResult with
        | ProcResult.timeout =>
          { httpStatus := 408, error := some "operation timeout",
            tempBundleDeleted := true }
        | ProcResult.fail e =>
          { httpStatus := 500, error := some ("push failed: " ++ e),
            tempBundleDeleted := true }
        | ProcResult.ok _ =>
          let base : PushResponse :=
            { status := "success", branch := branch,
              message := "Branch " ++ branch ++ " pushed successfully" }
          if !env.create_pr then
            { httpStatus := 200, response := some base,
              tempBundleDeleted := true }
          else if !env.ghAvailable then
            let r1 := { base with pr_created := some false }
            match ownerRepo repo_url with
            | some (o, r) =>
              let murl := manualPrUrl o r branch
              let r2 :=
                { r1 with
                  manual_pr_url := some murl,
                  pr_message := some
                    ("GitHub CLI not available on server. Create PR manually at: "
                      ++ murl) }
              { httpStatus := 200, response := some r2,
                tempBundleDeleted := true }
            | none =>
              let r2 :=
                { r1 with
                  pr_message := some
                    "GitHub CLI not available. Create PR manually on GitHub." }
              { httpStatus := 200, response := some r2,
                tempBundleDeleted := true }
          else
            match env.ghResult with
            | ProcResult.ok out =>
              { httpStatus := 200,
                response := some
                  { base with pr_created := some true, pr_url := some (pyStrip out) },
                tempBundleDeleted := true }
            | ProcResult.fail e =>
              let r1 := { base with pr_created := some false, pr_error := some e }
              match ownerRepo repo_url with
              | some (o, r) =>
                let murl := manualPrUrl o r branch
                let r2 :=
                  { r1 with
                    manual_pr_url := some murl,
                    pr_message := some
                      ("PR creation failed. Create manually at: " ++ murl) }
                { httpStatus := 200, response := some r2,
                  tempBundleDeleted := true }
              | none =>
                { httpStatus := 200, response := some r1,
                  tempBundleDeleted := true }
            | ProcResult.timeout =>
              { httpStatus := 408, error := some "operation timeout",
                tempBundleDeleted := true }

/-! ## Concrete instances used by counterexamples and witnesses -/

/-- A fresh session store with an empty heap. -/
def emptyStore : StoreState := ⟨[], fun _ => [], 0⟩

/-- A store holding one unexpired session `"id1"` granting `["git"]`,
whose services list lives at heap address 0. -/
def c3store : StoreState :=
  ⟨[("id1", ⟨"id1", 0, 0, 30⟩)], fun a => if a = 0 then ["git"] else [], 1⟩

/-- A store holding one session `"id2"` granting `["bsky"]` at heap
address 0. -/
def c3storeB : StoreState :=
  ⟨[("id2", ⟨"id2", 0, 0, 60⟩)], fun a => if a = 0 then ["bsky"] else [], 1⟩

/-- A store holding one session `"e1"` that expires at minute 30. -/
def c7store : StoreState :=
  ⟨[("e1", ⟨"e1", 0, 0, 30⟩)], fun a => if a = 0 then ["git"] else [], 1⟩

/-- An ATProto credential as `CredentialStore._parse_service_config` builds
it for the known service `bsky`. -/
def bskyCred : ServiceCredential :=
  { service_type := "atproto", base_url := "https://bsky.social/xrpc",
    identifier := some "alice.bsky.social", app_password := some "app-pass" }

/-- A bearer credential as built for the known service `github_api`. -/
def githubCred : ServiceCredential :=
  { service_type := "bearer", base_url := "https://api.github.com",
    credential := some "ghp_x" }

/-- A bearer credential with no token configured (`credential = None`). -/
def bearerNoToken : ServiceCredential :=
  { service_type := "bearer", base_url := "https://api.github.com" }

/-- A successful ATProto session-creation response body. -/
def sessDataW : SessData := ⟨"tokA", "refA", "did:plc:w", "alice"⟩

/-- A header dict containing a hop-by-hop header, both gateway auth headers,
a stale `Authorization`, and an innocuous header. -/
def hdrsW : Headers :=
  [("Connection", "keep-alive"), ("X-Session-Id", "abc"),
   ("X-Auth-Key", "legacy"), ("Authorization", "Bearer X"),
   ("Accept", "application/json")]

/-- A heap holding one header dict at address 0; address 1 is fresh. -/
def heapW : DictHeap :=
  ⟨fun a => if a = 0 then [("Accept", "application/json")] else [], 1⟩

/-- A fetch-bundle request whose clone succeeds and whose
`git bundle create` step times out. -/
def fetchEnvTimeout : FetchEnv :=
  ⟨true, some "https://github.com/u/r.git", "main", ProcResult.ok "",
   ProcResult.timeout⟩

/-- A push-bundle request with `create_pr=true` whose git steps all succeed
and whose `gh pr create` invocation times out. -/
def pushEnvGhTimeout : PushEnv :=
  ⟨true, some "https://github.com/u/r.git", some "feature", true, "", "",
   true, true, ProcResult.ok "", ProcResult.ok "", ProcResult.ok "",
   ProcResult.timeout⟩

/-- A push-bundle request with `create_pr=true` whose git steps all succeed
and with no gh CLI available. -/
def pushEnvNoGh : PushEnv :=
  ⟨true, some "https://github.com/u/r.git", some "feature", true, "", "",
   true, false, ProcResult.ok "", ProcResult.ok "", ProcResult.ok "",
   ProcResult.ok ""⟩

/-! ## Helper lemmas -/

/-- Every entry of `alistSet m k v` either has key `k` or was already in
`m`. -/
theorem mem_alistSet {α : Type} (m : List (String × α)) (k : String) (v : α) :
    ∀ p ∈ alistSet m k v, p.1 = k ∨ p ∈ m := by
  induction m with
  | nil =>
    intro p hp
    rw [alistSet] at hp
    simp at hp
    left
    rw [hp]
  | cons q rest ih =>
    intro p hp
    rw [alistSet] at hp
    by_cases hq : q.1 = k
    · simp [hq] at hp
      rcases hp with hp | hp
      · left; rw [hp]
      · right; exact List.mem_cons_of_mem _ hp
    · simp [hq] at hp
      rcases hp with hp | hp
      · right; rw [hp]; exact List.mem_cons_self _ _
      · rcases ih p hp with h | h
        · left; exact h
        · right; exact List.mem_cons_of_mem _ h

/-- After `alistErase m k` the key `k` is absent. -/
theorem alistGet_alistErase {α : Type} (m : List (String × α)) (k : String) :
    alistGet (alistErase m k) k = none := by
  induction m with
  | nil => rfl
  | cons q rest ih =>
    rw [alistErase]
    by_cases hq : q.1 = k
    · simp [hq, ih]
    · rw [if_neg hq, alistGet, if_neg hq]
      exact ih

/-- Every header surviving `filter_request_headers` has a lower-cased name
outside `HOP_BY_HOP_HEADERS`. -/
theorem mem_filter_request_headers (headers : Headers) :
    ∀ p ∈ filter_request_headers headers,
      ¬ pyLower p.1 ∈ HOP_BY_HOP_HEADERS := by
  intro p hp
  rw [filter_request_headers, List.mem_filter] at hp
  exact of_decide_eq_true hp.2

/-! ## Claim C1 -/

/-- C1 counterexample: `POST /sessions` with `services=["git"]` and
`ttl_minutes=0` succeeds and stores a session whose `expires_at` does not
exceed `created_at` — the endpoint applies no clamping of the TTL to
[1, 480], so the claimed invariant `expires_at > created_at` fails. -/
theorem C1_counterexample :
    ((create_session [] ["git"] 0 5 "sid" emptyStore).1.session.map
      (fun s => decide (s.expires_at > s.created_at))) = some false := by rfl

/-- C1 (amended): the session-creation endpoint uses the caller-supplied
`ttl_minutes` exactly as given — no clamping — so every stored session has
`created_at = now` and `expires_at = now + ttl_minutes`, and
`expires_at > created_at` holds iff `ttl_minutes > 0`. -/
theorem C1_session_ttl_unclamped (available services : List String)
    (ttl_minutes now : Int) (newId : String) (st : StoreState) (s : Session)
    (h : ((create_session available services ttl_minutes now newId st).1).session
          = some s) :
    s.created_at = now ∧ s.expires_at = now + ttl_minutes
  ∧ (s.expires_at > s.created_at ↔ ttl_minutes > 0) := by
  unfold create_session at h
  split at h
  · simp at h
  · split at h
    · have h2 : some (SessionStore.create st services ttl_minutes now newId).1
          = some s := h
      rw [Option.some_inj] at h2
      rw [← h2]
      refine ⟨rfl, rfl, ?_⟩
      show now + ttl_minutes > now ↔ ttl_minutes > 0
      omega
    · simp at h

/-- C1 witness: instantiating the amended theorem at a concrete request
(`ttl_minutes = 30`). -/
theorem C1_session_ttl_unclamped_witness :
    Session.created_at ⟨"sid", 0, 0, 0 + 30⟩ = 0
  ∧ Session.expires_at ⟨"sid", 0, 0, 0 + 30⟩ = 0 + 30
  ∧ (Session.expires_at ⟨"sid", 0, 0, 0 + 30⟩
      > Session.created_at ⟨"sid", 0, 0, 0 + 30⟩ ↔ (30 : Int) > 0) :=
  C1_session_ttl_unclamped [] ["git"] 30 0 "sid" emptyStore
    ⟨"sid", 0, 0, 0 + 30⟩ rfl

/-! ## Claim C2 -/

/-- C2: evaluating `fetch_bundle` on a request whose clone succeeds and
whose `git bundle create` times out: the temp bundle file was created, the
handler returns 408 through the outer `except` without ever unlinking it —
the file is retained, contradicting the claimed (and code-commented)
cleanup on every exit path. -/
theorem C2_fetch_bundle_leak :
    fetch_bundle fetchEnvTimeout
      = { httpStatus := 408, error := some "operation timeout",
          bundleFileCreated := true, bundleFileDeleted := false,
          sentBundle := false } := by rfl

/-! ## Claim C3 -/

/-- C3 counterexample: `SessionStore.get` hands back the stored record
itself — its services list is the store's own list object (heap address 0).
Appending `"bsky"` through the returned reference flips a subsequent
`has_service(id, "bsky")` from false to true, so `get` does not return a
copy or immutable view. -/
theorem C3_counterexample :
    (SessionStore.get c3store 0 "id1").1 = some ⟨"id1", 0, 0, 30⟩
  ∧ (SessionStore.has_service c3store 0 "id1" "bsky").1 = false
  ∧ (SessionStore.has_service (heapAppend c3store 0 "bsky") 0 "id1" "bsky").1
      = true := ⟨rfl, rfl, rfl⟩

/-- C3 (amended): `SessionStore.get` returns the stored record itself (the
caller and the store share the mutable services list), so appending a
service name through the returned reference changes the outcome of a
subsequent `has_service` on the same id from false to true. -/
theorem C3_get_aliases_store (st : StoreState) (now : Int) (sid svc : String)
    (s : Session)
    (hlook : alistGet st.sessions sid = some s)
    (hexp : s.is_expired now = false)
    (hsvc : (st.lheap s.servicesAddr).contains svc = false) :
    (SessionStore.get st now sid).1 = some s
  ∧ (SessionStore.has_service st now sid svc).1 = false
  ∧ (SessionStore.has_service (heapAppend st s.servicesAddr svc) now sid svc).1
      = true := by
  refine ⟨?_, ?_, ?_⟩
  · simp [SessionStore.get, hlook, hexp]
  · simp [SessionStore.has_service, SessionStore.get, hlook, hexp]
    simpa using hsvc
  · simp [SessionStore.has_service, SessionStore.get, heapAppend, hlook, hexp]

/-- C3 witness: instantiating the amended theorem on a concrete store whose
session `"id2"` grants only `["bsky"]`; appending `"git"` through the
returned record makes `has_service(id2, "git")` true. -/
theorem C3_get_aliases_store_witness :
    (SessionStore.get c3storeB 0 "id2").1 = some ⟨"id2", 0, 0, 60⟩
  ∧ (SessionStore.has_service c3storeB 0 "id2" "git").1 = false
  ∧ (SessionStore.has_service (heapAppend c3storeB 0 "git") 0 "id2" "git").1
      = true :=
  C3_get_aliases_store c3storeB 0 "id2" "git" ⟨"id2", 0, 0, 60⟩ rfl rfl rfl

/-! ## Claim C7 -/

/-- C7: `SessionStore.get` returns the stored session exactly when it is
present and unexpired (`now` has not passed `expires_at`); a present but
expired session is deleted as a side effect and `None` is returned; and
`has_service` is `get` followed by a membership test on the session's
services, returning false for absent or expired sessions. -/
theorem C7_get_lazy_eviction (st : StoreState) (now : Int) (sid svc : String) :
    (SessionStore.get st now sid).1
      = (alistGet st.sessions sid).filter (fun s => !(s.is_expired now))
  ∧ (∀ s : Session, alistGet st.sessions sid = some s →
        s.is_expired now = true →
          (SessionStore.get st now sid).1 = none
        ∧ alistGet ((SessionStore.get st now sid).2.sessions) sid = none)
  ∧ (SessionStore.has_service st now sid svc).1
      = (((SessionStore.get st now sid).1.map
          (fun s =>
            ((SessionStore.get st now sid).2.lheap s.servicesAddr).contains
              svc)).getD false) := by
  refine ⟨?_, ?_, ?_⟩
  · unfold SessionStore.get
    rcases hL : alistGet st.sessions sid with _ | s0
    · simp [Option.filter]
    · by_cases hE : s0.is_expired now
      · simp [hE, Option.filter]
      · simp [hE, Option.filter]
  · intro s hs hexp
    unfold SessionStore.get
    rw [hs]
    simp [hexp]
    exact alistGet_alistErase st.sessions sid
  · unfold SessionStore.has_service
    rcases hg : (SessionStore.get st now sid).1 with _ | s0 <;> simp [hg]

/-- C7 witness: on a store whose only session expires at minute 30, a `get`
at minute 100 returns absent and has deleted the entry. -/
theorem C7_get_lazy_eviction_witness :
    (SessionStore.get c7store 100 "e1").1 = none
  ∧ alistGet ((SessionStore.get c7store 100 "e1").2.sessions) "e1" = none :=
  (C7_get_lazy_eviction c7store 100 "e1" "git").2.1 ⟨"e1", 0, 0, 30⟩ rfl rfl

/-! ## Claim C4 -/

/-- C4: for an ATProto credential, (1) a cached sub-session with more than 5
minutes of validity left is reused: its access token is injected and no
network call is made; (2) when the cache cannot be reused and both the
refresh and the session-creation calls fail, `_get_atproto_token` yields
`None` (the failure signal, logged by `inject_auth`) and the returned
headers and URL are the inputs unchanged — no `Authorization` is added. -/
theorem C4_atproto_cache_and_failure (cred : ServiceCredential) (env : ATEnv)
    (now : Int) (headers : Headers) (url : String)
    (hT : cred.service_type = "atproto") :
    (∀ s : ATProtoSession, s.expires_at > now + 5 →
        inject_auth cred env now (some s) headers url
          = (alistSet headers "Authorization" ("Bearer " ++ s.access_jwt), url,
             some s, []))
  ∧ (∀ st : Option ATProtoSession,
        (∀ s, st = some s → ¬ s.expires_at > now + 5) →
        env.refreshOutcome = none → env.createOutcome = none →
          (get_atproto_token cred env now st).1 = none
        ∧ (inject_auth cred env now st headers url).1 = headers
        ∧ (inject_auth cred env now st headers url).2.1 = url) := by
  constructor
  · intro s hs
    unfold inject_auth get_atproto_token
    simp [hT, hs]
  · intro st hnv hR hC
    have htok : (get_atproto_token cred env now st).1 = none := by
      cases st with
      | none =>
        unfold get_atproto_token create_atproto_session
        by_cases hid : pyTruthyStr cred.identifier && pyTruthyStr cred.app_password
        · simp [hid, hC]
        · simp [hid]
      | some s =>
        have hs := hnv s rfl
        unfold get_atproto_token refresh_atproto_session create_atproto_session
        by_cases hid : pyTruthyStr cred.identifier && pyTruthyStr cred.app_password
        · simp [hs, hR, hC, hid]
        · simp [hs, hR, hid]
    refine ⟨htok, ?_, ?_⟩
    · unfold inject_auth
      simp [hT, htok]
    · unfold inject_auth
      simp [hT, htok]

/-- C4 witness: a cached session valid until minute 100 is reused at minute
0 with no network call; with empty outcomes (every network call fails) and
no cache, the token is `None` and the headers and URL come back unchanged. -/
theorem C4_atproto_cache_and_failure_witness :
    inject_auth bskyCred {} 0 (some ⟨"tokA", "refA", "did:plc:w", "alice", 100⟩)
        hdrsW "https://bsky.social/xrpc/app.bsky.feed.searchPosts"
      = (alistSet hdrsW "Authorization" ("Bearer " ++ "tokA"),
         "https://bsky.social/xrpc/app.bsky.feed.searchPosts",
         some ⟨"tokA", "refA", "did:plc:w", "alice", 100⟩, [])
  ∧ (get_atproto_token bskyCred {} 0 none).1 = none
  ∧ (inject_auth bskyCred {} 0 none hdrsW
      "https://bsky.social/xrpc/app.bsky.feed.searchPosts").1 = hdrsW
  ∧ (inject_auth bskyCred {} 0 none hdrsW
      "https://bsky.social/xrpc/app.bsky.feed.searchPosts").2.1
      = "https://bsky.social/xrpc/app.bsky.feed.searchPosts" := by
  have h := C4_atproto_cache_and_failure bskyCred {} 0 hdrsW
    "https://bsky.social/xrpc/app.bsky.feed.searchPosts" rfl
  have h2 := h.2 none (fun s hs => nomatch hs) rfl rfl
  exact ⟨h.1 ⟨"tokA", "refA", "did:plc:w", "alice", 100⟩ (by decide),
         h2.1, h2.2.1, h2.2.2⟩

/-! ## Claim C6 -/

/-- C6: with no cached sub-session, two `inject_auth` calls for the same
ATProto credential — concurrent, hence serialized in some order by the
credential's `_session_lock` and here composed sequentially at times `t1`
and `t2` (the two calls are textually identical, so the order is immaterial)
— make exactly one `createSession` network call in total: the first call
creates and caches the sub-session (valid for 2 hours), the second reuses
the cache with no network call, and both hand out the same access token. -/
theorem C6_single_session_creation (cred : ServiceCredential) (env : ATEnv)
    (d : SessData) (t1 t2 : Int)
    (hid : pyTruthyStr cred.identifier = true)
    (hpw : pyTruthyStr cred.app_password = true)
    (hc : env.createOutcome = some d)
    (ht : t2 + 5 < t1 + 120) :
    (get_atproto_token cred env t1 none).2.2
      ++ (get_atproto_token cred env t2
            (get_atproto_token cred env t1 none).2.1).2.2
      = [NetCall.createSession]
  ∧ (get_atproto_token cred env t1 none).1 = some d.accessJwt
  ∧ (get_atproto_token cred env t2
      (get_atproto_token cred env t1 none).2.1).1 = some d.accessJwt := by
  have h1 : get_atproto_token cred env t1 none
      = (some d.accessJwt,
         some ⟨d.accessJwt, d.refreshJwt, d.did, d.handle, t1 + 120⟩,
         [NetCall.createSession]) := by
    unfold get_atproto_token create_atproto_session
    simp [hid, hpw, hc]
  have h2 : get_atproto_token cred env t2
        (some ⟨d.accessJwt, d.refreshJwt, d.did, d.handle, t1 + 120⟩)
      = (some d.accessJwt,
         some ⟨d.accessJwt, d.refreshJwt, d.did, d.handle, t1 + 120⟩, []) := by
    unfold get_atproto_token
    have hgt : (t1 + 120 : Int) > t2 + 5 := by omega
    simp [hgt]
  simp [h1, h2]

/-- C6 witness: both calls at minute 0 against an environment whose
session-creation call succeeds: one `createSession` call in total. -/
theorem C6_single_session_creation_witness :
    (get_atproto_token bskyCred { createOutcome := some sessDataW } 0 none).2.2
      ++ (get_atproto_token bskyCred { createOutcome := some sessDataW } 0
            (get_atproto_token bskyCred { createOutcome := some sessDataW } 0
              none).2.1).2.2
      = [NetCall.createSession]
  ∧ (get_atproto_token bskyCred { createOutcome := some sessDataW } 0 none).1
      = some "tokA"
  ∧ (get_atproto_token bskyCred { createOutcome := some sessDataW } 0
      (get_atproto_token bskyCred { createOutcome := some sessDataW } 0
        none).2.1).1 = some "tokA" :=
  C6_single_session_creation bskyCred { createOutcome := some sessDataW }
    sessDataW 0 0 rfl rfl rfl (by decide)

/-! ## Claim C5 -/

/-- The headers component of `inject_auth` is either the input unchanged, or
the input with `Authorization` set, or (header strategy only) the input with
the configured header name set. -/
theorem inject_auth_headers_shape (cred : ServiceCredential) (env : ATEnv)
    (now : Int) (st : Option ATProtoSession) (headers : Headers)
    (url : String) :
    (inject_auth cred env now st headers url).1 = headers
  ∨ (∃ v, (inject_auth cred env now st headers url).1
        = alistSet headers "Authorization" v)
  ∨ (cred.service_type = "header" ∧ ∃ v,
      (inject_auth cred env now st headers url).1
        = alistSet headers (pyOrStr cred.auth_header "X-API-Key") v) := by
  by_cases h1 : cred.service_type = "atproto"
  · rcases htok : (get_atproto_token cred env now st).1 with _ | tok
    · left
      simp [inject_auth, h1, htok]
    · right; left
      exact ⟨"Bearer " ++ tok, by simp [inject_auth, h1, htok]⟩
  · by_cases h2 : cred.service_type = "bearer"
    · by_cases h3 : pyTruthyStr cred.credential
      · right; left
        exact ⟨"Bearer " ++ cred.credential.getD "",
               by simp [inject_auth, h1, h2, h3]⟩
      · left
        simp [inject_auth, h1, h2, h3]
    · by_cases h4 : cred.service_type = "header"
      · by_cases h3 : pyTruthyStr cred.credential
        · right; right
          exact ⟨h4, cred.credential.getD "",
                 by simp [inject_auth, h1, h2, h4, h3]⟩
        · left
          simp [inject_auth, h1, h2, h4, h3]
      · by_cases h5 : cred.service_type = "query"
        · by_cases h3 : pyTruthyStr cred.credential
          · left
            simp [inject_auth, h1, h2, h4, h5, h3]
          · left
            simp [inject_auth, h1, h2, h4, h5, h3]
        · left
          simp [inject_auth, h1, h2, h4, h5]

/-- C5: the headers the Forwarding Proxy sends upstream — the input headers
put through `filter_request_headers` and then `inject_auth`, as in
`forward_request` — contain no header whose lower-cased name is hop-by-hop
or one of the gateway's own auth headers (`HOP_BY_HOP_HEADERS` includes
`x-session-id` and `x-auth-key`). The only hypothesis: a header-strategy
credential's configured header name is not itself one of the stripped names
(`Authorization`, injected by the other strategies, never is). -/
theorem C5_no_hop_headers_forwarded (cred : ServiceCredential) (env : ATEnv)
    (now : Int) (st : Option ATProtoSession) (headers : Headers)
    (url : String)
    (hh : cred.service_type = "header" →
      ¬ pyLower (pyOrStr cred.auth_header "X-API-Key") ∈ HOP_BY_HOP_HEADERS) :
    ∀ p ∈ (inject_auth cred env now st (filter_request_headers headers)
            url).1,
      ¬ pyLower p.1 ∈ HOP_BY_HOP_HEADERS := by
  intro p hp
  rcases inject_auth_headers_shape cred env now st
      (filter_request_headers headers) url with h | ⟨v, h⟩ | ⟨hty, v, h⟩
  · rw [h] at hp
    exact mem_filter_request_headers headers p hp
  · rw [h] at hp
    rcases mem_alistSet _ _ _ p hp with hk | hm
    · rw [hk]
      decide
    · exact mem_filter_request_headers headers p hm
  · rw [h] at hp
    rcases mem_alistSet _ _ _ p hp with hk | hm
    · rw [hk]
      exact hh hty
    · exact mem_filter_request_headers headers p hm

/-- C5 witness: input headers carrying `Connection`, `X-Session-Id`,
`X-Auth-Key` and a stale `Authorization`, forwarded for the bearer service:
only the reconstructed `Authorization` and the innocuous `Accept` reach the
upstream, and no surviving header is hop-by-hop or gateway-auth. -/
theorem C5_no_hop_headers_forwarded_witness :
    (inject_auth githubCred {} 0 none (filter_request_headers hdrsW)
        "https://api.github.com/user").1
      = [("Authorization", "Bearer ghp_x"), ("Accept", "application/json")]
  ∧ ∀ p ∈ (inject_auth githubCred {} 0 none (filter_request_headers hdrsW)
            "https://api.github.com/user").1,
      ¬ pyLower p.1 ∈ HOP_BY_HOP_HEADERS :=
  ⟨by decide,
   C5_no_hop_headers_forwarded githubCred {} 0 none hdrsW
     "https://api.github.com/user" (fun h => absurd h (by decide))⟩

/-! ## Claim C9 -/

/-- C9: `inject_auth` never mutates the caller's headers dict: the body
copies it (`headers = dict(headers)`) into a fresh object and writes only to
the copy, so after the call the dict at the caller's address is unchanged
and the returned dict is the freshly allocated one. -/
theorem C9_inject_auth_no_mutation (cred : ServiceCredential) (env : ATEnv)
    (now : Int) (st : Option ATProtoSession) (h : DictHeap) (addr : Nat)
    (url : String) (hfresh : addr ≠ h.next) :
    ((inject_auth_on_heap cred env now st h addr url).1).mem addr = h.mem addr
  ∧ (inject_auth_on_heap cred env now st h addr url).2.1 = h.next := by
  unfold inject_auth_on_heap
  exact ⟨by simp [hfresh], rfl⟩

/-- C9 witness: the bearer credential applied to the dict at address 0 of a
concrete heap leaves that dict unchanged and returns the fresh address 1. -/
theorem C9_inject_auth_no_mutation_witness :
    ((inject_auth_on_heap githubCred {} 0 none heapW 0
        "https://api.github.com/user").1).mem 0 = heapW.mem 0
  ∧ (inject_auth_on_heap githubCred {} 0 none heapW 0
      "https://api.github.com/user").2.1 = 1 :=
  C9_inject_auth_no_mutation githubCred {} 0 none heapW 0
    "https://api.github.com/user" (by decide)

/-! ## Claim C10 -/

/-- C10: a bearer/header/query credential whose `credential` field is `None`
injects nothing: `inject_auth` returns the headers (content of the copy)
and the URL unchanged, caches nothing and makes no network call. -/
theorem C10_missing_credential_noop (cred : ServiceCredential) (env : ATEnv)
    (now : Int) (st : Option ATProtoSession) (headers : Headers)
    (url : String)
    (hN : cred.credential = none)
    (hT : cred.service_type = "bearer" ∨ cred.service_type = "header"
        ∨ cred.service_type = "query") :
    inject_auth cred env now st headers url = (headers, url, st, []) := by
  rcases hT with hT | hT | hT <;> simp [inject_auth, hT, hN, pyTruthyStr]

/-- C10 witness: the tokenless bearer credential (as
`_parse_service_config` builds when the config has no `token`/`credential`
key) passes headers and URL through untouched. -/
theorem C10_missing_credential_noop_witness :
    inject_auth bearerNoToken {} 0 none hdrsW "https://api.github.com/user"
      = (hdrsW, "https://api.github.com/user", none, []) :=
  C10_missing_credential_noop bearerNoToken {} 0 none hdrsW
    "https://api.github.com/user" rfl (Or.inl rfl)

/-! ## Claim C8 -/

/-- C8 counterexample: a push-bundle request with `create_pr=true` whose
clone, bundle-fetch and push all succeed, but whose `gh pr create`
invocation times out: the `subprocess.TimeoutExpired` escapes to the outer
`except` and the whole request returns 408 with no success body — so a
PR-creation failure can fail the overall push request. -/
theorem C8_counterexample :
    push_bundle pushEnvGhTimeout
      = { httpStatus := 408, error := some "operation timeout",
          response := none, tempBundleDeleted := true } := by rfl

/-- C8 (amended): for a push-bundle request with `create_pr=true` whose
clone, bundle-fetch and push succeed, if the gh CLI is unavailable or its
invocation exits nonzero (but does not time out — a timeout fails the whole
request with 408), the response reports `status:"success"` and, provided
the trimmed `repo_url` splits into at least two `/`-separated parts (owner
and repo), a populated `manual_pr_url` of the form
`https://github.com/{owner}/{repo}/pull/new/{branch}`. -/
theorem C8_push_pr_fallback (env : PushEnv) (c f p : String)
    (o rp : String)
    (hA : env.authorized = true)
    (hru : pyTruthyStr env.repo_url = true)
    (hbr : pyTruthyStr env.branch = true)
    (hbf : env.hasBundleFile = true)
    (hc : env.cloneResult = ProcResult.ok c)
    (hf : env.fetchResult = ProcResult.ok f)
    (hp : env.pushResult = ProcResult.ok p)
    (hcp : env.create_pr = true)
    (hgh : env.ghAvailable = false ∨ (∃ e, env.ghResult = ProcResult.fail e))
    (hor : ownerRepo (env.repo_url.getD "") = some (o, rp)) :
    ((push_bundle env).response.map (fun r => r.status)) = some "success"
  ∧ ((push_bundle env).response.map (fun r => r.manual_pr_url))
      = some (some (manualPrUrl o rp (env.branch.getD ""))) := by
  by_cases hga : env.ghAvailable
  · rcases hgh with hgh | ⟨e, hgh⟩
    · rw [hga] at hgh
      exact absurd hgh (by simp)
    · unfold push_bundle
      simp [hA, hru, hbr, hbf, hc, hf, hp, hcp, hga, hgh, hor]
  · have hga2 : env.ghAvailable = false := by
      simpa using hga
    unfold push_bundle
    simp [hA, hru, hbr, hbf, hc, hf, hp, hcp, hga2, hor]

/-- C8 witness: the concrete no-gh-CLI request — all git steps succeed,
`create_pr=true` — yields `status:"success"` and the manual PR URL. -/
theorem C8_push_pr_fallback_witness :
    ((push_bundle pushEnvNoGh).response.map (fun r => r.status))
      = some "success"
  ∧ ((push_bundle pushEnvNoGh).response.map (fun r => r.manual_pr_url))
      = some (some (manualPrUrl "u" "r" "feature")) :=
  C8_push_pr_fallback pushEnvNoGh "" "" "" "u" "r" rfl rfl rfl rfl rfl rfl
    rfl rfl (Or.inl rfl) (by decide)

end ClaudeGitBridge
